import Mathlib

/-!
Shallow embedding of `crates/byte_cli/src/endpoints/init_config.rs` from the
Origin-Byte/gutenberg repository, together with models of the `gutenberg`
library values it calls into (`schema::Schema`, `models::nft`,
`types::Royalties`).  Those library items are not part of the sources under
verification, so they are modelled from the specification; everything else is
translated directly from the Rust source.

The interactive session is embedded as a pure function of an `Answers` record
holding the operator's accepted answer at each prompt.  `dialoguer` prompts
re-solicit input until the attached validator passes, so an accepted free-text
answer always satisfies its validator; theorems state that as a hypothesis
where it matters.  `Select` prompts return an index into the displayed
catalog, `MultiSelect` prompts a list of indices.
-/

/-- Outcome of a Rust computation that may panic: `.panicked` models an
unrecoverable process abort (an out-of-bounds index, or `.unwrap()` /
`.expect(..)` applied to an error value), while `.ok v` is a normal result. -/
inductive PanicOr (α : Type) where
  | panicked : PanicOr α
  | ok : α → PanicOr α
deriving DecidableEq

/-- Sequencing of possibly-panicking computations: a panic propagates. -/
def PanicOr.bind {α β : Type} : PanicOr α → (α → PanicOr β) → PanicOr β
  | .panicked, _ => .panicked
  | .ok v, f => f v

/-- Models `.unwrap()` on a Rust `Result`: an `Err` aborts the session. -/
def unwrapResult {ε α : Type} : Except ε α → PanicOr α
  | .error _ => .panicked
  | .ok v => .ok v

/-- Models `.expect(..)` on a Rust `Option`/parse result: `None` aborts. -/
def expectSome {α : Type} : Option α → PanicOr α
  | none => .panicked
  | some v => .ok v

/-! ### Catalogs (init_config.rs lines 9-28) -/

def TAG_OPTIONS : List String :=
  ["Art", "ProfilePicture", "Collectible", "GameAsset", "TokenisedAsset",
   "Ticker", "DomainName", "Music", "Video", "Ticket", "License"]

def FIELD_OPTIONS : List String := ["display", "url", "attributes"]

def BEHAVIOUR_OPTIONS : List String := ["composable", "loose"]

def SUPPLY_OPTIONS : List String := ["Unlimited", "Limited"]

def MINTING_OPTIONS : List String := ["Launchpad", "Direct", "Airdrop"]

def ROYALTY_OPTIONS : List String := ["Proportional", "Constant", "None"]

def MARKET_OPTIONS : List String := ["FixedPrice", "DutchAuction"]

/-! ### Parsing and validators (init_config.rs lines 53-83) -/

/-- Strips the single optional leading `+` sign accepted by Rust's
`u64::from_str`. -/
def stripPlusSign : List Char → List Char
  | '+' :: rest => rest
  | cs => cs

/-- Decimal value of a digit string, most significant digit first. -/
def decimalValue (ds : List Char) : Nat :=
  ds.foldl (fun acc c => acc * 10 + (c.toNat - 48)) 0

/-- Shallow embedding of Rust `str::parse::<u64>`: after an optional leading
`+`, the text must be one or more ASCII decimal digits and the value must fit
in 64 bits; any other input (empty, signs, spaces, overflow) is a parse
error, modelled as `none`. -/
def parse_u64 (s : String) : Option Nat :=
  if (stripPlusSign s.data).isEmpty then none
  else if (stripPlusSign s.data).all Char.isDigit then
    if decimalValue (stripPlusSign s.data) < 2 ^ 64 then
      some (decimalValue (stripPlusSign s.data))
    else none
  else none

/-- Embedding of `string_validator` (line 53): accepts every answer. -/
def string_validator (_input : String) : Except String Unit := .ok ()

/-- Embedding of `address_validator` (lines 66-75): the answer's UTF-8 byte
length must be exactly 20. -/
def address_validator (input : String) : Except String Unit :=
  if input.utf8ByteSize ≠ 20 then
    .error ("Couldn't parse input of '" ++ input ++ "' to an address.")
  else .ok ()

/-- Embedding of `number_validator` (lines 77-83): the answer must parse as a
`u64`; otherwise the error message names the offending text. -/
def number_validator (input : String) : Except String Unit :=
  if (parse_u64 input).isNone then
    .error ("Couldn't parse input of '" ++ input ++ "' to a number.")
  else .ok ()

/-- Embedding of `map_indices` (lines 41-47).  The Rust body evaluates
`arr[*index].to_string()` left to right; indexing a slice out of bounds
panics, which `.panicked` models. -/
def map_indices : List Nat → List String → PanicOr (List String)
  | [], _ => .ok []
  | i :: rest, arr =>
    match arr[i]? with
    | none => .panicked
    | some s =>
      match map_indices rest arr with
      | .panicked => .panicked
      | .ok vs => .ok (s :: vs)

/-! ### Modelled gutenberg library types -/

/-- Modelled from the spec: the `collection` part of `schema::Schema`
(gutenberg crate, not under src/) — name, description, symbol, optional tag
set, optional URL (§3); created empty at session start (§3 lifecycle). -/
structure Collection where
  name : String := ""
  description : String := ""
  symbol : String := ""
  tags : List String := []
  url : Option String := none
deriving DecidableEq

/-- Modelled from the spec: `set_name` has overwrite semantics (§4.3). -/
def Collection.set_name (c : Collection) (v : String) : Collection :=
  { c with name := v }

/-- Modelled from the spec: `set_description` has overwrite semantics (§4.3). -/
def Collection.set_description (c : Collection) (v : String) : Collection :=
  { c with description := v }

/-- Modelled from the spec: `set_symbol` has overwrite semantics (§4.3). -/
def Collection.set_symbol (c : Collection) (v : String) : Collection :=
  { c with symbol := v }

/-- Modelled from the spec: `set_tags` (gutenberg crate, not under src/)
replaces the whole tag set atomically and fails — as a checked `Result` —
on a string outside the Tag catalog (§3, §4.3). -/
def Collection.set_tags (c : Collection) (tags : List String) :
    Except String Collection :=
  if tags.all (fun t => TAG_OPTIONS.contains t) then .ok { c with tags := tags }
  else .error "tag not in catalog"

/-- Modelled from the spec: `set_url` has overwrite semantics (§4.3). -/
def Collection.set_url (c : Collection) (v : String) : Collection :=
  { c with url := some v }

/-- Modelled from the spec: `nft::SupplyPolicy` — variant
Unlimited | Limited with a limit (§3). -/
inductive SupplyPolicy where
  | unlimited : SupplyPolicy
  | limited : Nat → SupplyPolicy
deriving DecidableEq

/-- Modelled from the spec: `nft::SupplyPolicy::new_from` (gutenberg crate,
not under src/) — kind must be in the Supply catalog; `"Limited"` without a
limit, or `"Unlimited"` with one, is a constraint violation (§4.2). -/
def SupplyPolicy.new_from (kind : String) (limit : Option Nat) :
    Except String SupplyPolicy :=
  if kind == "Unlimited" then
    match limit with
    | none => .ok .unlimited
    | some _ => .error "limit supplied for an unlimited supply policy"
  else if kind == "Limited" then
    match limit with
    | some l => .ok (.limited l)
    | none => .error "no limit supplied for a limited supply policy"
  else .error "supply policy not in catalog"

/-- Modelled from the spec: `types::Royalties` — variant
Proportional{fee} | Constant{fee} | None; the fee is stored as a raw
integer (§3, §4.2). -/
inductive Royalties where
  | proportional : Nat → Royalties
  | constant : Nat → Royalties
  | none : Royalties
deriving DecidableEq

/-- Modelled from the spec: `Royalties::new_from` (gutenberg crate, not under
src/) — kind must be in the RoyaltyPolicy catalog; `"None"` requires the fee
absent, the other two require it present (§4.2). -/
def Royalties.new_from (kind : String) (fee : Option Nat) :
    Except String Royalties :=
  if kind == "Proportional" then
    match fee with
    | some f => .ok (.proportional f)
    | Option.none => .error "no fee supplied for a proportional royalty"
  else if kind == "Constant" then
    match fee with
    | some f => .ok (.constant f)
    | Option.none => .error "no fee supplied for a constant royalty"
  else if kind == "None" then
    match fee with
    | Option.none => .ok .none
    | some _ => .error "fee supplied for an absent royalty policy"
  else .error "royalty policy not in catalog"

/-- Modelled from the spec: `nft::Fields::new_from` (gutenberg crate, not
under src/) — the selected names must lie in {display, url, attributes, tags}
(§3) and the constructor never rejects a catalog-valid set, the empty set
included (§4.2). -/
def Fields.new_from (selected : List String) : Except String (List String) :=
  if selected.all (fun f => FIELD_OPTIONS.contains f || f == "tags") then
    .ok selected
  else .error "field not in catalog"

/-- Modelled from the spec: `nft::Behaviours::new_from` (gutenberg crate, not
under src/) — a subset of {composable, loose} (§3), no further checks (§4.2). -/
def Behaviours.new_from (selected : List String) :
    Except String (List String) :=
  if selected.all (fun b => BEHAVIOUR_OPTIONS.contains b) then .ok selected
  else .error "behaviour not in catalog"

/-- Modelled from the spec: `nft::MintStrategy::new_from` (gutenberg crate,
not under src/) — a non-empty subset of the MintStrategy catalog; an empty
selection is a constraint violation (§3, §4.2). -/
def MintStrategy.new_from (selected : List String) :
    Except String (List String) :=
  if selected.isEmpty then .error "no minting strategy selected"
  else if selected.all (fun m => MINTING_OPTIONS.contains m) then .ok selected
  else .error "minting strategy not in catalog"

/-- Modelled from the spec: the `nft` part of `schema::Schema` (gutenberg
crate, not under src/) — fields, behaviours, supply policy, mint strategy
(§3); the defaults are the empty pre-handoff state. -/
structure Nft where
  fields : List String := []
  behaviours : List String := []
  supply_policy : SupplyPolicy := .unlimited
  mint_strategy : List String := []
deriving DecidableEq

/-- Modelled from the spec: a `Listing` record — administrator address,
receiver address and a market primitive (§3). -/
structure Listing where
  admin : String
  receiver : String
  market : String
deriving DecidableEq

/-- Modelled from the spec: `schema::Schema` (gutenberg crate, not under
src/) — collection metadata, NFT configuration, royalties and the ordered
listings sequence (§3). -/
structure Schema where
  collection : Collection := {}
  nft : Nft := {}
  royalties : Royalties := .none
  listings : List Listing := []
deriving DecidableEq

/-- Modelled from the spec: `Schema::new` — "Schema is created empty at
session start" (§3 lifecycle). -/
def Schema.new : Schema := {}

/-! ### The interactive session (init_config.rs lines 49-275) -/

/-- The operator's accepted answer at each prompt of
`init_collection_config`, in prompt order.  Free-text answers are the strings
the `Input` prompts return; `*Index`/`*Indices` fields are the indices
`Select`/`MultiSelect` return into the displayed catalog; `hasTags`/`hasUrl`
are the `Confirm` answers.  `marketIndices i` is the answer to the market
prompt of loop iteration `i`. -/
structure Answers where
  name : String
  description : String
  symbol : String
  hasTags : Bool
  tagIndices : List Nat
  hasUrl : Bool
  url : String
  fieldIndices : List Nat
  behaviourIndices : List Nat
  supplyIndex : Nat
  supplyLimitText : String
  mintIndices : List Nat
  royaltyIndex : Nat
  proportionalFeeText : String
  constantFeeText : String
  listingsText : String
  adminAddress : String
  receiverAddress : String
  marketIndices : Nat → Nat

/-- Lines 85-139: the collection metadata block — name, description and
symbol setters, the optional tag block (`map_indices` over `TAG_OPTIONS`,
then `set_tags(..).unwrap()`), and the optional URL. -/
def collectionStep (a : Answers) : PanicOr Collection :=
  let c := Schema.new.collection
  let c := c.set_name a.name
  let c := c.set_description a.description
  let c := c.set_symbol a.symbol
  (if a.hasTags then
     (map_indices a.tagIndices TAG_OPTIONS).bind fun tags =>
       unwrapResult (c.set_tags tags)
   else .ok c).bind fun c =>
  .ok (if a.hasUrl then c.set_url a.url else c)

/-- Lines 141-152: the list handed to `Fields::new_from` — the selected
field names, with `"tags"` pushed when the collection has tags. -/
def nftFieldsList (a : Answers) : PanicOr (List String) :=
  (map_indices a.fieldIndices FIELD_OPTIONS).bind fun raw =>
  .ok (if a.hasTags then raw ++ ["tags"] else raw)

/-- Line 154: `Fields::new_from(nft_fields).unwrap()`. -/
def fieldsStep (a : Answers) : PanicOr (List String) :=
  (nftFieldsList a).bind fun nft_fields =>
  unwrapResult (Fields.new_from nft_fields)

/-- Lines 156-164: behaviours selection and `Behaviours::new_from(..).unwrap()`. -/
def behavioursStep (a : Answers) : PanicOr (List String) :=
  (map_indices a.behaviourIndices BEHAVIOUR_OPTIONS).bind fun raw =>
  unwrapResult (Behaviours.new_from raw)

/-- Lines 166-189: supply-policy selection; when the chosen option is
`"Limited"` the limit prompt runs and its answer is parsed (the `.expect`
after a validated answer), then `SupplyPolicy::new_from(..).unwrap()`. -/
def supplyStep (a : Answers) : PanicOr SupplyPolicy :=
  let supply_policy := SUPPLY_OPTIONS.getD a.supplyIndex ""
  (if supply_policy == "Limited" then
     (expectSome (parse_u64 a.supplyLimitText)).bind fun n => .ok (some n)
   else .ok Option.none).bind fun limit =>
  unwrapResult (SupplyPolicy.new_from supply_policy limit)

/-- Lines 191-200: minting strategies and `MintStrategy::new_from(..).unwrap()`. -/
def mintStep (a : Answers) : PanicOr (List String) :=
  (map_indices a.mintIndices MINTING_OPTIONS).bind fun raw =>
  unwrapResult (MintStrategy.new_from raw)

/-- Lines 202-237: royalty-policy selection; the fee starts as `None` and the
`"Proportional"` and `"Constant"` branches each solicit and parse a fee;
then `Royalties::new_from(..).unwrap()`. -/
def royaltiesStep (a : Answers) : PanicOr Royalties :=
  let royalty_policy := ROYALTY_OPTIONS.getD a.royaltyIndex ""
  (if royalty_policy == "Proportional" then
     (expectSome (parse_u64 a.proportionalFeeText)).bind fun n => .ok (some n)
   else .ok Option.none).bind fun fee =>
  (if royalty_policy == "Constant" then
     (expectSome (parse_u64 a.constantFeeText)).bind fun n => .ok (some n)
   else .ok fee).bind fun fee =>
  unwrapResult (Royalties.new_from royalty_policy fee)

/-- The market primitives solicited by the listings loop (lines 263-274): one
`Select` over `MARKET_OPTIONS` for each iteration of `0..count`.  The Rust
code binds each selection to `market_type` and never uses it. -/
def marketSelections (a : Answers) (count : Nat) : List String :=
  (List.range count).map fun i => MARKET_OPTIONS.getD (a.marketIndices i) ""

/-- Lines 239-274: the listings phase — the listing count is parsed from a
validated answer, the administrator and receiver addresses are collected, and
the loop solicits one market primitive per iteration.  None of these values
is written to the schema. -/
def listingsPhase (a : Answers) : PanicOr Unit :=
  (expectSome (parse_u64 a.listingsText)).bind fun listings =>
  let _admin_address := a.adminAddress
  let _receiver_address := a.receiverAddress
  let _markets := marketSelections a listings
  .ok ()

/-- Embedding of `init_collection_config` (lines 49-275): the whole session,
from `Schema::new()` to the end of the listings loop, as a function of the
operator's accepted answers.  `.panicked` models the session aborting on an
`.unwrap()`/`.expect(..)` failure or an out-of-bounds index. -/
def init_collection_config (a : Answers) : PanicOr Schema :=
  (collectionStep a).bind fun c =>
  (fieldsStep a).bind fun fields =>
  (behavioursStep a).bind fun behaviours =>
  (supplyStep a).bind fun sp =>
  (mintStep a).bind fun strategies =>
  (royaltiesStep a).bind fun royalties =>
  (listingsPhase a).bind fun _ =>
  .ok { collection := c,
        nft := { fields := fields, behaviours := behaviours,
                 supply_policy := sp, mint_strategy := strategies },
        royalties := royalties,
        listings := Schema.new.listings }

/-! ### Concrete sessions used by witnesses and counterexamples -/

/-- The end-to-end scenario of spec §8: name "Apes", empty description,
symbol "APE", tags Art and Collectible, no URL, field "display", behaviour
"composable", Limited supply with limit 100, minting strategy "Direct",
Constant royalty with fee 250, one listing with market FixedPrice and valid
20-byte addresses. -/
def baseAnswers : Answers :=
  { name := "Apes"
    description := ""
    symbol := "APE"
    hasTags := true
    tagIndices := [0, 2]
    hasUrl := false
    url := ""
    fieldIndices := [0]
    behaviourIndices := [0]
    supplyIndex := 1
    supplyLimitText := "100"
    mintIndices := [1]
    royaltyIndex := 1
    proportionalFeeText := ""
    constantFeeText := "250"
    listingsText := "1"
    adminAddress := "0x000000000000000001"
    receiverAddress := "0x000000000000000002"
    marketIndices := fun _ => 0 }

/-- The schema the session of `baseAnswers` commits. -/
def baseSchema : Schema :=
  { collection := { name := "Apes", description := "", symbol := "APE",
                    tags := ["Art", "Collectible"], url := none }
    nft := { fields := ["display", "tags"], behaviours := ["composable"],
             supply_policy := .limited 100, mint_strategy := ["Direct"] }
    royalties := .constant 250
    listings := [] }


/-- The tag-set construction the wizard runs for a list of selected tag
indices (lines 114-124): `map_indices` over `TAG_OPTIONS`, then `set_tags` on
the session's collection.  The outer `PanicOr` layer is an unchecked abort;
the inner `Except` layer is the checked constructor result. -/
def tagSetConstruction (indices : List Nat) :
    PanicOr (Except String Collection) :=
  (map_indices indices TAG_OPTIONS).bind fun tags =>
  .ok (Schema.new.collection.set_tags tags)

/-- The spec's words for the numeric validator's domain, taken literally:
text that is the decimal numeral of a non-negative integer, with no bound —
one or more decimal digits. -/
def is_nonneg_integer_text (s : String) : Bool :=
  !s.data.isEmpty && s.data.all Char.isDigit

/-- The texts `u64` parsing actually accepts: after an optional leading plus
sign, one or more decimal digits whose value fits in 64 bits. -/
def is_u64_numeral_text (s : String) : Prop :=
  stripPlusSign s.data ≠ [] ∧
  (∀ c ∈ stripPlusSign s.data, c.isDigit) ∧
  decimalValue (stripPlusSign s.data) < 2 ^ 64

instance (s : String) : Decidable (is_u64_numeral_text s) := by
  unfold is_u64_numeral_text
  infer_instance

/-- Two sessions agree on every prompt up to and including the royalty
policy, i.e. on everything asked before the listings phase (lines 85-237). -/
def preListingsEq (a b : Answers) : Prop :=
  a.name = b.name ∧ a.description = b.description ∧ a.symbol = b.symbol ∧
  a.hasTags = b.hasTags ∧ a.tagIndices = b.tagIndices ∧
  a.hasUrl = b.hasUrl ∧ a.url = b.url ∧
  a.fieldIndices = b.fieldIndices ∧ a.behaviourIndices = b.behaviourIndices ∧
  a.supplyIndex = b.supplyIndex ∧ a.supplyLimitText = b.supplyLimitText ∧
  a.mintIndices = b.mintIndices ∧ a.royaltyIndex = b.royaltyIndex ∧
  a.proportionalFeeText = b.proportionalFeeText ∧
  a.constantFeeText = b.constantFeeText

/-- A session where the operator selects zero NFT field options and declines
tags; every other answer is as in `baseAnswers`. -/
def c2answers : Answers :=
  { baseAnswers with hasTags := false, tagIndices := [], fieldIndices := [] }

/-- The schema the session of `c2answers` commits: no tags, no NFT fields. -/
def c2schema : Schema :=
  { baseSchema with
      collection := { baseSchema.collection with tags := [] },
      nft := { baseSchema.nft with fields := [] } }

/-- A session whose answer to the collection-name prompt is the empty
string; every other answer is as in `baseAnswers`. -/
def c3answers : Answers := { baseAnswers with name := "" }

/-- The schema the session of `c3answers` commits: an empty name. -/
def c3schema : Schema :=
  { baseSchema with collection := { baseSchema.collection with name := "" } }

/-- A session whose answer to the supply-limit prompt is `"0"`; every other
answer is as in `baseAnswers`. -/
def c5answers : Answers := { baseAnswers with supplyLimitText := "0" }

/-- The schema the session of `c5answers` commits: a limit of zero. -/
def c5schema : Schema :=
  { baseSchema with nft := { baseSchema.nft with supply_policy := .limited 0 } }

/-- A session answering every prompt up to the royalty policy exactly as
`baseAnswers` does, and every listings-phase prompt (listing count,
administrator address, receiver address, per-iteration markets) differently. -/
def c10answersB : Answers :=
  { baseAnswers with
      listingsText := "2"
      adminAddress := "0x0000000000000000AA"
      receiverAddress := "0x0000000000000000BB"
      marketIndices := fun _ => 1 }

/-! ### Helper lemmas -/

@[simp] theorem PanicOr.bind_panicked {α β : Type} (f : α → PanicOr β) :
    PanicOr.bind .panicked f = .panicked := rfl

@[simp] theorem PanicOr.bind_ok {α β : Type} (v : α) (f : α → PanicOr β) :
    PanicOr.bind (.ok v) f = f v := rfl

@[simp] theorem unwrapResult_error {ε α : Type} (e : ε) :
    unwrapResult (α := α) (.error e) = .panicked := rfl

@[simp] theorem unwrapResult_ok {ε α : Type} (v : α) :
    unwrapResult (ε := ε) (.ok v) = .ok v := rfl

@[simp] theorem expectSome_none {α : Type} :
    expectSome (α := α) none = .panicked := rfl

@[simp] theorem expectSome_some {α : Type} (v : α) :
    expectSome (some v) = .ok v := rfl

theorem PanicOr.bind_eq_ok {α β : Type} {x : PanicOr α} {f : α → PanicOr β}
    {b : β} (h : x.bind f = .ok b) : ∃ a, x = .ok a ∧ f a = .ok b := by
  cases x with
  | panicked => simp [PanicOr.bind] at h
  | ok a => exact ⟨a, rfl, h⟩

theorem unwrapResult_eq_ok {ε α : Type} {e : Except ε α} {v : α}
    (h : unwrapResult e = .ok v) : e = .ok v := by
  cases e with
  | error e => simp [unwrapResult] at h
  | ok w => simpa [unwrapResult, PanicOr.ok.injEq] using h

theorem expectSome_eq_ok {α : Type} {o : Option α} {v : α}
    (h : expectSome o = .ok v) : o = some v := by
  cases o with
  | none => simp [expectSome] at h
  | some w => simpa [expectSome, PanicOr.ok.injEq] using h

theorem map_indices_ok_length {l : List Nat} {arr vs : List String}
    (h : map_indices l arr = .ok vs) : vs.length = l.length := by
  induction l generalizing vs with
  | nil =>
    unfold map_indices at h
    cases h
    rfl
  | cons i rest ih =>
    unfold map_indices at h
    cases hi : arr[i]? <;> rw [hi] at h
    · cases h
    · cases hr : map_indices rest arr <;> rw [hr] at h
      · cases h
      · cases h
        simpa using ih hr

theorem map_indices_ok_mem {l : List Nat} {arr vs : List String}
    (h : map_indices l arr = .ok vs) : ∀ x ∈ vs, x ∈ arr := by
  induction l generalizing vs with
  | nil =>
    unfold map_indices at h
    cases h
    intro x hx
    cases hx
  | cons i rest ih =>
    unfold map_indices at h
    cases hi : arr[i]? <;> rw [hi] at h
    · cases h
    · cases hr : map_indices rest arr <;> rw [hr] at h
      · cases h
      · cases h
        intro x hx
        rcases List.mem_cons.mp hx with rfl | hx
        · exact List.getElem?_mem hi
        · exact ih hr x hx

theorem map_indices_oob {l : List Nat} {arr : List String} {i : Nat}
    (hmem : i ∈ l) (hlen : arr.length ≤ i) :
    map_indices l arr = .panicked := by
  induction l with
  | nil => cases hmem
  | cons j rest ih =>
    unfold map_indices
    rcases List.mem_cons.mp hmem with rfl | hmem
    · rw [List.getElem?_eq_none hlen]
    · cases hj : arr[j]?
      · rfl
      · rw [ih hmem]

theorem set_tags_eq_ok {c c' : Collection} {ts : List String}
    (h : Collection.set_tags c ts = .ok c') : c' = { c with tags := ts } := by
  unfold Collection.set_tags at h
  split at h
  · exact (Except.ok.inj h).symm
  · cases h

theorem Fields.new_from_eq_ok {l v : List String}
    (h : Fields.new_from l = .ok v) : v = l := by
  unfold Fields.new_from at h
  split at h
  · exact (Except.ok.inj h).symm
  · cases h

theorem init_collection_config_ok_elim {a : Answers} {s : Schema}
    (h : init_collection_config a = .ok s) :
    ∃ c f b sp m r,
      collectionStep a = .ok c ∧ fieldsStep a = .ok f ∧
      behavioursStep a = .ok b ∧ supplyStep a = .ok sp ∧
      mintStep a = .ok m ∧ royaltiesStep a = .ok r ∧
      listingsPhase a = .ok () ∧
      s = { collection := c,
            nft := { fields := f, behaviours := b, supply_policy := sp,
                     mint_strategy := m },
            royalties := r, listings := [] } := by
  unfold init_collection_config at h
  obtain ⟨c, hc, h⟩ := PanicOr.bind_eq_ok h
  obtain ⟨f, hf, h⟩ := PanicOr.bind_eq_ok h
  obtain ⟨b, hb, h⟩ := PanicOr.bind_eq_ok h
  obtain ⟨sp, hsp, h⟩ := PanicOr.bind_eq_ok h
  obtain ⟨m, hm, h⟩ := PanicOr.bind_eq_ok h
  obtain ⟨r, hr, h⟩ := PanicOr.bind_eq_ok h
  obtain ⟨u, hl, h⟩ := PanicOr.bind_eq_ok h
  cases u
  exact ⟨c, f, b, sp, m, r, hc, hf, hb, hsp, hm, hr, hl, (PanicOr.ok.inj h).symm⟩

theorem collectionStep_ok_name {a : Answers} {c : Collection}
    (h : collectionStep a = .ok c) : c.name = a.name := by
  unfold collectionStep at h
  obtain ⟨c1, h1, h2⟩ := PanicOr.bind_eq_ok h
  have hc : c = if a.hasUrl then c1.set_url a.url else c1 :=
    (PanicOr.ok.inj h2).symm
  have hname1 : c1.name = a.name := by
    by_cases ht : a.hasTags
    · rw [if_pos ht] at h1
      obtain ⟨ts, _, h1⟩ := PanicOr.bind_eq_ok h1
      rw [set_tags_eq_ok (unwrapResult_eq_ok h1)]
      rfl
    · rw [if_neg ht] at h1
      rw [← PanicOr.ok.inj h1]
      rfl
  rw [hc]
  by_cases hu : a.hasUrl
  · rw [if_pos hu]
    exact hname1
  · rw [if_neg hu]
    exact hname1

theorem fieldsStep_ok_elim {a : Answers} {f : List String}
    (h : fieldsStep a = .ok f) :
    ∃ raw, map_indices a.fieldIndices FIELD_OPTIONS = .ok raw ∧
      f = if a.hasTags then raw ++ ["tags"] else raw := by
  unfold fieldsStep nftFieldsList at h
  obtain ⟨nf, h1, h2⟩ := PanicOr.bind_eq_ok h
  obtain ⟨raw, hraw, h1⟩ := PanicOr.bind_eq_ok h1
  have hnf : nf = if a.hasTags then raw ++ ["tags"] else raw :=
    (PanicOr.ok.inj h1).symm
  exact ⟨raw, hraw, (Fields.new_from_eq_ok (unwrapResult_eq_ok h2)).trans hnf⟩

theorem supplyStep_unlimited {a : Answers} (hidx : a.supplyIndex = 0) :
    supplyStep a = .ok .unlimited := by
  unfold supplyStep
  rw [hidx]
  rfl

theorem supplyStep_limited {a : Answers} {sp : SupplyPolicy}
    (hidx : a.supplyIndex = 1) (h : supplyStep a = .ok sp) :
    ∃ n, parse_u64 a.supplyLimitText = some n ∧ sp = .limited n := by
  unfold supplyStep at h
  rw [hidx] at h
  simp only [show (SUPPLY_OPTIONS.getD 1 "" == "Limited") = true from rfl,
    if_true] at h
  obtain ⟨limit, h1, h2⟩ := PanicOr.bind_eq_ok h
  obtain ⟨n, hn, h1⟩ := PanicOr.bind_eq_ok h1
  have hl : limit = some n := (PanicOr.ok.inj h1).symm
  subst hl
  have := unwrapResult_eq_ok h2
  rw [show SupplyPolicy.new_from (SUPPLY_OPTIONS.getD 1 "") (some n) =
    .ok (.limited n) from rfl] at this
  exact ⟨n, expectSome_eq_ok hn, (Except.ok.inj this).symm⟩

theorem supplyStep_ignores_limit_text {a : Answers} (hidx : a.supplyIndex = 0)
    (t : String) :
    supplyStep { a with supplyLimitText := t } = supplyStep a := by
  unfold supplyStep
  rw [show ({ a with supplyLimitText := t } : Answers).supplyIndex
      = a.supplyIndex from rfl, hidx]
  rfl

theorem royaltiesStep_none_policy {a : Answers} (hidx : a.royaltyIndex = 2) :
    royaltiesStep a = .ok .none := by
  unfold royaltiesStep
  rw [hidx]
  rfl

theorem royaltiesStep_proportional {a : Answers} {r : Royalties}
    (hidx : a.royaltyIndex = 0) (h : royaltiesStep a = .ok r) :
    ∃ n, parse_u64 a.proportionalFeeText = some n ∧ r = .proportional n := by
  unfold royaltiesStep at h
  rw [hidx] at h
  simp only [show (ROYALTY_OPTIONS.getD 0 "" == "Proportional") = true from rfl,
    show (ROYALTY_OPTIONS.getD 0 "" == "Constant") = false from rfl,
    if_true, Bool.false_eq_true, if_false] at h
  obtain ⟨fee, h1, h2⟩ := PanicOr.bind_eq_ok h
  obtain ⟨n, hn, h1⟩ := PanicOr.bind_eq_ok h1
  obtain ⟨fee2, h2a, h2⟩ := PanicOr.bind_eq_ok h2
  have hfee : fee = some n := (PanicOr.ok.inj h1).symm
  have hfee2 : fee2 = fee := (PanicOr.ok.inj h2a).symm
  subst hfee hfee2
  have := unwrapResult_eq_ok h2
  rw [show Royalties.new_from (ROYALTY_OPTIONS.getD 0 "") (some n) =
    .ok (.proportional n) from rfl] at this
  exact ⟨n, expectSome_eq_ok hn, (Except.ok.inj this).symm⟩

theorem royaltiesStep_constant {a : Answers} {r : Royalties}
    (hidx : a.royaltyIndex = 1) (h : royaltiesStep a = .ok r) :
    ∃ n, parse_u64 a.constantFeeText = some n ∧ r = .constant n := by
  unfold royaltiesStep at h
  rw [hidx] at h
  simp only [show (ROYALTY_OPTIONS.getD 1 "" == "Proportional") = false from rfl,
    show (ROYALTY_OPTIONS.getD 1 "" == "Constant") = true from rfl,
    if_true, Bool.false_eq_true, if_false] at h
  obtain ⟨fee, h1, h2⟩ := PanicOr.bind_eq_ok h
  obtain ⟨fee2, h2a, h2⟩ := PanicOr.bind_eq_ok h2
  obtain ⟨n, hn, h1'⟩ := PanicOr.bind_eq_ok h2a
  have hfee2 : fee2 = some n := (PanicOr.ok.inj h1').symm
  subst hfee2
  have := unwrapResult_eq_ok h2
  rw [show Royalties.new_from (ROYALTY_OPTIONS.getD 1 "") (some n) =
    .ok (.constant n) from rfl] at this
  exact ⟨n, expectSome_eq_ok hn, (Except.ok.inj this).symm⟩

/-! ### Claim C4 -/

/-- Claim C4, counterexample: at the explicit out-of-bounds index 11 (the Tag
catalog has exactly 11 entries, indices 0-10) the tag-set construction does
not produce the checked tag-set-construction failure the claim promises; it
panics inside `map_indices` — an unchecked abort — before `set_tags` is ever
reached. -/
theorem c4_counterexample :
    tagSetConstruction [11] = .panicked ∧
    tagSetConstruction [11] ≠ .ok (.error "tag not in catalog") := by
  constructor
  · rfl
  · intro h
    exact PanicOr.noConfusion h

/-- Claim C4 (amended): mapping selected indices to catalog strings performs
no defensive check against the catalog length: any index greater than or
equal to the catalog length makes the tag-set construction panic with an
unchecked index-out-of-bounds abort, and no checked failure is produced. -/
theorem c4_oob_index_panics (indices : List Nat) (i : Nat)
    (hmem : i ∈ indices) (hlen : TAG_OPTIONS.length ≤ i) :
    tagSetConstruction indices = .panicked := by
  unfold tagSetConstruction
  rw [map_indices_oob hmem hlen]
  rfl

/-- Witness for `c4_oob_index_panics` at the concrete index list `[11]`. -/
theorem c4_oob_index_panics_witness :
    11 ∈ [11] ∧ TAG_OPTIONS.length ≤ 11 ∧
    tagSetConstruction [11] = .panicked :=
  ⟨by decide, by decide, c4_oob_index_panics [11] 11 (by decide) (by decide)⟩

/-! ### Claim C6 -/

/-- Claim C6, counterexample: `"18446744073709551616"` (2^64) is the decimal
text of a non-negative integer, yet the numeric validator rejects it because
the value does not fit in a `u64`, so "passes iff the text parses as a
non-negative integer" fails at this input. -/
theorem c6_counterexample :
    is_nonneg_integer_text "18446744073709551616" = true ∧
    number_validator "18446744073709551616" =
      .error "Couldn't parse input of '18446744073709551616' to a number." := by
  constructor
  · decide
  · rfl

/-- Claim C6 (amended): the numeric validator passes a raw text answer iff
the text parses as a non-negative integer that fits in 64 bits (an optional
leading plus sign followed by decimal digits with value below 2^64, exactly
what `u64` parsing accepts), and on failure it returns a message that names
the offending text. -/
theorem c6_number_validator_characterisation (s : String) :
    (number_validator s = .ok () ↔ is_u64_numeral_text s) ∧
    (¬ is_u64_numeral_text s →
      number_validator s =
        .error ("Couldn't parse input of '" ++ s ++ "' to a number.")) := by
  have hparse : (parse_u64 s).isSome = true ↔ is_u64_numeral_text s := by
    unfold parse_u64 is_u64_numeral_text
    split_ifs with h1 h2 h3 <;>
      simp_all [List.isEmpty_iff, List.all_eq_true]
  constructor
  · unfold number_validator
    rcases hp : parse_u64 s with _ | n
    · rw [← hparse]
      simp [hp]
    · rw [← hparse]
      simp [hp]
  · intro hn
    rw [← hparse] at hn
    unfold number_validator
    rcases hp : parse_u64 s with _ | n
    · simp [hp]
    · rw [hp] at hn
      simp at hn

/-- Witness for `c6_number_validator_characterisation` at the concrete
rejected text `"abc"`. -/
theorem c6_number_validator_characterisation_witness :
    number_validator "abc" =
      .error ("Couldn't parse input of '" ++ "abc" ++ "' to a number.") :=
  (c6_number_validator_characterisation "abc").2 (by decide)

/-! ### Claim C2 -/

/-- Claim C2, counterexample: in the explicit session `c2answers` the
operator selects zero field options and declines tags; the session completes
and the committed NFT fields set is empty, so the fields set is not non-empty
in every session. -/
theorem c2_counterexample :
    c2answers.hasTags = false ∧ c2answers.fieldIndices = [] ∧
    init_collection_config c2answers = .ok c2schema ∧
    c2schema.nft.fields = [] :=
  ⟨rfl, rfl, by decide, rfl⟩

/-- Claim C2 (amended): the NFT fields set committed to the schema is
non-empty after the "tags" auto-inclusion step in every session in which the
operator selects at least one field option or confirms tags; in a session
with zero selected field options and declined tags it is empty. -/
theorem c2_fields_nonempty (a : Answers) (s : Schema)
    (h : init_collection_config a = .ok s)
    (hne : a.hasTags = true ∨ a.fieldIndices ≠ []) :
    s.nft.fields ≠ [] := by
  obtain ⟨c, f, b, sp, m, r, _, hf, _, _, _, _, _, hs⟩ :=
    init_collection_config_ok_elim h
  subst hs
  obtain ⟨raw, hraw, hfeq⟩ := fieldsStep_ok_elim hf
  show f ≠ []
  rw [hfeq]
  rcases hne with ht | hne
  · rw [if_pos ht]
    simp
  · by_cases ht : a.hasTags
    · rw [if_pos ht]
      simp
    · rw [if_neg ht]
      intro hnil
      apply hne
      have hlen := map_indices_ok_length hraw
      rw [hnil] at hlen
      exact List.length_eq_zero.mp hlen.symm

/-- Witness for `c2_fields_nonempty` at the concrete session
`baseAnswers`. -/
theorem c2_fields_nonempty_witness :
    (baseAnswers.hasTags = true ∨ baseAnswers.fieldIndices ≠ []) ∧
    baseSchema.nft.fields ≠ [] :=
  ⟨Or.inl rfl,
   c2_fields_nonempty baseAnswers baseSchema (by decide) (Or.inl rfl)⟩

/-! ### Claim C3 -/

/-- Claim C3, counterexample: the text validator attached to the name prompt
accepts the empty answer, and the explicit session `c3answers` then commits
the empty string as the collection name via `set_name`. -/
theorem c3_counterexample :
    string_validator "" = .ok () ∧
    init_collection_config c3answers = .ok c3schema ∧
    c3schema.collection.name = "" :=
  ⟨rfl, by decide, rfl⟩

/-- Claim C3 (amended): the collection name committed to the schema via
`set_name` is the operator's answer verbatim, and the text validator guarding
the name prompt accepts every answer, the empty one included — so the
committed name may be empty text. -/
theorem c3_name_committed_verbatim (a : Answers) (s : Schema)
    (h : init_collection_config a = .ok s) :
    string_validator a.name = .ok () ∧ s.collection.name = a.name := by
  refine ⟨rfl, ?_⟩
  obtain ⟨c, f, b, sp, m, r, hc, _, _, _, _, _, _, hs⟩ :=
    init_collection_config_ok_elim h
  subst hs
  exact collectionStep_ok_name hc

/-- Witness for `c3_name_committed_verbatim` at the concrete session
`baseAnswers`. -/
theorem c3_name_committed_verbatim_witness :
    string_validator baseAnswers.name = .ok () ∧
    baseSchema.collection.name = baseAnswers.name :=
  c3_name_committed_verbatim baseAnswers baseSchema (by decide)

/-! ### Claim C5 -/

/-- Claim C5, counterexample: the numeric validator accepts the answer `"0"`
at the supply-limit prompt, and the explicit session `c5answers` then
commits the supply policy `Limited` with limit 0, which is not at least 1. -/
theorem c5_counterexample :
    number_validator "0" = .ok () ∧
    init_collection_config c5answers = .ok c5schema ∧
    c5schema.nft.supply_policy = .limited 0 :=
  ⟨rfl, by decide, rfl⟩

/-- Claim C5 (amended): whenever the chosen supply policy is "Limited", the
limit committed to the schema is the parsed value of the validator-accepted
answer — a non-negative 64-bit integer, which may be zero; positivity is not
enforced. -/
theorem c5_limit_is_parsed_value (a : Answers) (s : Schema)
    (_hval : number_validator a.supplyLimitText = .ok ())
    (hidx : a.supplyIndex = 1)
    (h : init_collection_config a = .ok s) :
    ∃ n, parse_u64 a.supplyLimitText = some n ∧
      s.nft.supply_policy = .limited n := by
  obtain ⟨c, f, b, sp, m, r, _, _, _, hsp, _, _, _, hs⟩ :=
    init_collection_config_ok_elim h
  subst hs
  exact supplyStep_limited hidx hsp

/-- Witness for `c5_limit_is_parsed_value` at the concrete session
`c5answers`, whose accepted supply-limit answer is `"0"`. -/
theorem c5_limit_is_parsed_value_witness :
    ∃ n, parse_u64 c5answers.supplyLimitText = some n ∧
      c5schema.nft.supply_policy = .limited n :=
  c5_limit_is_parsed_value c5answers c5schema rfl rfl (by decide)

/-! ### Claim C7 -/

/-- Claim C7: choosing "Unlimited" passes no limit to
`SupplyPolicy::new_from` — the committed policy carries no limit and the
session result does not depend on the supply-limit answer, since the limit
prompt is never run; choosing "Limited" solicits a limit and passes exactly
the operator-supplied value, so the committed policy is `Limited` with the
parsed answer; and a mismatched presence is a constraint violation of
`SupplyPolicy::new_from`. -/
theorem c7_supply_policy_flow (a : Answers) (s : Schema)
    (h : init_collection_config a = .ok s) :
    (a.supplyIndex = 0 →
      s.nft.supply_policy = .unlimited ∧
      ∀ t, init_collection_config { a with supplyLimitText := t } =
        init_collection_config a) ∧
    (a.supplyIndex = 1 →
      ∃ n, parse_u64 a.supplyLimitText = some n ∧
        s.nft.supply_policy = .limited n) ∧
    (∀ n : Nat,
      (∃ e, SupplyPolicy.new_from "Limited" Option.none = .error e) ∧
      (∃ e, SupplyPolicy.new_from "Unlimited" (some n) = .error e)) := by
  obtain ⟨c, f, b, sp, m, r, _, _, _, hsp, _, _, _, hs⟩ :=
    init_collection_config_ok_elim h
  subst hs
  refine ⟨fun hidx => ⟨?_, fun t => ?_⟩,
    fun hidx => supplyStep_limited hidx hsp,
    fun n => ⟨⟨_, rfl⟩, ⟨_, rfl⟩⟩⟩
  · show sp = .unlimited
    exact (PanicOr.ok.inj ((supplyStep_unlimited hidx).symm.trans hsp)).symm
  · unfold init_collection_config
    rw [show collectionStep { a with supplyLimitText := t }
          = collectionStep a from rfl,
        show fieldsStep { a with supplyLimitText := t }
          = fieldsStep a from rfl,
        show behavioursStep { a with supplyLimitText := t }
          = behavioursStep a from rfl,
        show mintStep { a with supplyLimitText := t }
          = mintStep a from rfl,
        show royaltiesStep { a with supplyLimitText := t }
          = royaltiesStep a from rfl,
        show listingsPhase { a with supplyLimitText := t }
          = listingsPhase a from rfl,
        supplyStep_ignores_limit_text hidx t]

/-- Witness for `c7_supply_policy_flow` at the concrete session
`baseAnswers`, whose supply choice is "Limited" with accepted answer
`"100"`. -/
theorem c7_supply_policy_flow_witness :
    ∃ n, parse_u64 baseAnswers.supplyLimitText = some n ∧
      baseSchema.nft.supply_policy = .limited n :=
  (c7_supply_policy_flow baseAnswers baseSchema (by decide)).2.1 rfl

/-! ### Claim C8 -/

/-- Claim C8: the fee passed to `Royalties::new_from` is present iff the
chosen policy is "Proportional" or "Constant" — the committed royalties then
carry exactly the parsed fee answer; when the policy is "None" no fee prompt
runs (the session result does not depend on either fee answer) and no fee is
passed, so the committed royalties carry none. -/
theorem c8_royalty_fee_presence (a : Answers) (s : Schema)
    (h : init_collection_config a = .ok s) :
    (a.royaltyIndex = 2 →
      s.royalties = .none ∧
      ∀ t u, init_collection_config
          { a with proportionalFeeText := t, constantFeeText := u } =
        init_collection_config a) ∧
    (a.royaltyIndex = 0 →
      ∃ n, parse_u64 a.proportionalFeeText = some n ∧
        s.royalties = .proportional n) ∧
    (a.royaltyIndex = 1 →
      ∃ n, parse_u64 a.constantFeeText = some n ∧
        s.royalties = .constant n) := by
  obtain ⟨c, f, b, sp, m, r, _, _, _, _, _, hr, _, hs⟩ :=
    init_collection_config_ok_elim h
  subst hs
  refine ⟨fun hidx => ⟨?_, fun t u => ?_⟩,
    fun hidx => royaltiesStep_proportional hidx hr,
    fun hidx => royaltiesStep_constant hidx hr⟩
  · show r = .none
    exact (PanicOr.ok.inj ((royaltiesStep_none_policy hidx).symm.trans hr)).symm
  · have hfees : royaltiesStep
        { a with proportionalFeeText := t, constantFeeText := u } =
        royaltiesStep a :=
      (royaltiesStep_none_policy
        (a := { a with proportionalFeeText := t, constantFeeText := u })
        hidx).trans (royaltiesStep_none_policy hidx).symm
    unfold init_collection_config
    rw [show collectionStep
          { a with proportionalFeeText := t, constantFeeText := u }
          = collectionStep a from rfl,
        show fieldsStep
          { a with proportionalFeeText := t, constantFeeText := u }
          = fieldsStep a from rfl,
        show behavioursStep
          { a with proportionalFeeText := t, constantFeeText := u }
          = behavioursStep a from rfl,
        show supplyStep
          { a with proportionalFeeText := t, constantFeeText := u }
          = supplyStep a from rfl,
        show mintStep
          { a with proportionalFeeText := t, constantFeeText := u }
          = mintStep a from rfl,
        show listingsPhase
          { a with proportionalFeeText := t, constantFeeText := u }
          = listingsPhase a from rfl,
        hfees]

/-- Witness for `c8_royalty_fee_presence` at the concrete session
`baseAnswers`, whose royalty choice is "Constant" with accepted fee answer
`"250"`. -/
theorem c8_royalty_fee_presence_witness :
    ∃ n, parse_u64 baseAnswers.constantFeeText = some n ∧
      baseSchema.royalties = .constant n :=
  (c8_royalty_fee_presence baseAnswers baseSchema (by decide)).2.2 rfl

/-! ### Claim C9 -/

/-- Claim C9: if the operator added tags to the collection, the string
"tags" is unconditionally appended to the selected NFT field names before
`Fields` construction, so the committed fields set contains "tags" even when
it was not explicitly selected; if no tags were added, "tags" is not
appended and the committed fields set does not contain it. -/
theorem c9_tags_field_auto_included (a : Answers) (s : Schema)
    (h : init_collection_config a = .ok s) :
    (∃ raw, map_indices a.fieldIndices FIELD_OPTIONS = .ok raw ∧
      s.nft.fields = if a.hasTags then raw ++ ["tags"] else raw) ∧
    (a.hasTags = true → "tags" ∈ s.nft.fields) ∧
    (a.hasTags = false → "tags" ∉ s.nft.fields) := by
  obtain ⟨c, f, b, sp, m, r, _, hf, _, _, _, _, _, hs⟩ :=
    init_collection_config_ok_elim h
  subst hs
  obtain ⟨raw, hraw, hfeq⟩ := fieldsStep_ok_elim hf
  refine ⟨⟨raw, hraw, hfeq⟩, fun ht => ?_, fun ht => ?_⟩
  · show "tags" ∈ f
    rw [hfeq, if_pos ht]
    simp
  · show "tags" ∉ f
    rw [hfeq, if_neg (by simp [ht])]
    intro hmem
    exact absurd (map_indices_ok_mem hraw _ hmem) (by decide)

/-- Witness for `c9_tags_field_auto_included` at the concrete session
`baseAnswers`, which confirms tags but does not select a "tags" field. -/
theorem c9_tags_field_auto_included_witness :
    baseAnswers.hasTags = true ∧ "tags" ∈ baseSchema.nft.fields :=
  ⟨rfl, (c9_tags_field_auto_included baseAnswers baseSchema (by decide)).2.1 rfl⟩

/-! ### Claim C10 -/

/-- Claim C10: the final schema is unaffected by the listings-phase answers —
any two completing sessions that agree on every prompt up to and including
the royalty policy commit equal schema values, whatever their listing-count,
address and per-iteration market answers are. -/
theorem c10_schema_ignores_listings_answers (a b : Answers) (s t : Schema)
    (hpre : preListingsEq a b)
    (ha : init_collection_config a = .ok s)
    (hb : init_collection_config b = .ok t) : s = t := by
  obtain ⟨h1, h2, h3, h4, h5, h6, h7, h8, h9, h10, h11, h12, h13, h14, h15⟩ :=
    hpre
  have ec : collectionStep a = collectionStep b := by
    simp only [collectionStep, h1, h2, h3, h4, h5, h6, h7]
  have ef : fieldsStep a = fieldsStep b := by
    simp only [fieldsStep, nftFieldsList, h4, h8]
  have ebv : behavioursStep a = behavioursStep b := by
    simp only [behavioursStep, h9]
  have esp : supplyStep a = supplyStep b := by
    simp only [supplyStep, h10, h11]
  have em : mintStep a = mintStep b := by
    simp only [mintStep, h12]
  have er : royaltiesStep a = royaltiesStep b := by
    simp only [royaltiesStep, h13, h14, h15]
  obtain ⟨c, f, bb, sp, m, r, hc, hf, hbv, hsp, hm, hr, _, hs⟩ :=
    init_collection_config_ok_elim ha
  obtain ⟨c', f', bb', sp', m', r', hc', hf', hbv', hsp', hm', hr', _, ht⟩ :=
    init_collection_config_ok_elim hb
  obtain rfl : c = c' := PanicOr.ok.inj ((ec.symm.trans hc).symm.trans hc')
  obtain rfl : f = f' := PanicOr.ok.inj ((ef.symm.trans hf).symm.trans hf')
  obtain rfl : bb = bb' :=
    PanicOr.ok.inj ((ebv.symm.trans hbv).symm.trans hbv')
  obtain rfl : sp = sp' :=
    PanicOr.ok.inj ((esp.symm.trans hsp).symm.trans hsp')
  obtain rfl : m = m' := PanicOr.ok.inj ((em.symm.trans hm).symm.trans hm')
  obtain rfl : r = r' := PanicOr.ok.inj ((er.symm.trans hr).symm.trans hr')
  rw [hs, ht]

/-- Witness for `c10_schema_ignores_listings_answers` at the concrete
sessions `baseAnswers` and `c10answersB`, which differ in listing count,
both addresses and every market answer yet commit the same schema. -/
theorem c10_schema_ignores_listings_answers_witness :
    preListingsEq baseAnswers c10answersB ∧ baseSchema = baseSchema :=
  ⟨⟨rfl, rfl, rfl, rfl, rfl, rfl, rfl, rfl, rfl, rfl, rfl, rfl, rfl, rfl, rfl⟩,
   c10_schema_ignores_listings_answers baseAnswers c10answersB
     baseSchema baseSchema
     ⟨rfl, rfl, rfl, rfl, rfl, rfl, rfl, rfl, rfl, rfl, rfl, rfl, rfl, rfl, rfl⟩
     (by decide) (by decide)⟩

/-! ### Claim C1 -/

/-- Claim C1 (code bug): in the concrete session `baseAnswers` the operator
declares one listing, supplies validator-accepted administrator and receiver
addresses and chooses the market primitive FixedPrice in the single loop
iteration — the loop does run exactly once and solicits that selection — yet
the session commits a schema whose listings sequence is empty: the loop body
discards the selected market primitive and never constructs a Listing
record, so no Listing carrying the shared administrator/receiver pair is
produced. -/
theorem c1_loop_produces_no_listing_records :
    parse_u64 baseAnswers.listingsText = some 1 ∧
    address_validator baseAnswers.adminAddress = .ok () ∧
    address_validator baseAnswers.receiverAddress = .ok () ∧
    marketSelections baseAnswers 1 = ["FixedPrice"] ∧
    init_collection_config baseAnswers = .ok baseSchema ∧
    baseSchema.listings = [] ∧
    baseSchema.listings.length ≠ 1 :=
  ⟨rfl, rfl, rfl, rfl, by decide, rfl, by decide⟩
